import Mathlib

/-!
Verification of the EGP Transactions Service TypeScript SDK core
(`src/core/httpClient.ts`, `src/core/utils.ts`, `src/resources/wallets.ts`,
`src/core/errors.ts`) against its natural-language specification.

The development shallowly embeds the request/response engine: JSON values,
header manipulation (case-insensitive, as the `Headers` web API), the
authentication-header resolution, query-parameter serialization, body
preparation, response interpretation (envelope detection, expected-status
override, status classification), fetch-failure classification, and the
fail-fast input validation of `WalletsAPI.create`.
-/

/-- A parsed JSON value, as produced by `response.json()`. -/
inductive JsonValue where
  | null
  | bool (b : Bool)
  | num (n : Int)
  | str (s : String)
  | arr (items : List JsonValue)
  | obj (fields : List (String × JsonValue))

/-- Property lookup `o[k]` on a JS object literal (duplicate keys cannot
survive JSON parsing, so first match suffices). -/
def lookupField (fields : List (String × JsonValue)) (k : String) : Option JsonValue :=
  (fields.find? (fun p => p.1 == k)).map (fun p => p.2)

/-- `Object.prototype.hasOwnProperty.call(o, k)` on a parsed JSON object. -/
def hasOwnProp (fields : List (String × JsonValue)) (k : String) : Bool :=
  fields.any (fun p => p.1 == k)

/-- A Zod field-level issue, as carried by `ValidationError.issues`
(`src/core/errors.ts`). -/
structure ZodIssue where
  path : String
  message : String
deriving DecidableEq, Repr

/-- The outcome of an `HttpClient.request` call: a returned payload
(`none` models the JS `undefined` returned for no-content responses) or one
of the error kinds of `src/core/errors.ts` (`AuthenticationError`,
`APIError`, `SDKError` for internal errors, `NetworkError`,
`ValidationError`). -/
inductive SDKOutcome where
  | ok (payload : Option JsonValue)
  | authenticationError
  | apiError (status : Nat) (body : Option JsonValue)
  | sdkError (message : String)
  | networkError (message : String)
  | validationError (message : String) (issues : List ZodIssue)

/-! ## Headers (case-insensitive, as the web `Headers` class) -/

/-- ASCII lowercasing of one character. -/
def lowerChar (c : Char) : Char :=
  if 'A' ≤ c ∧ c ≤ 'Z' then Char.ofNat (c.toNat + 32) else c

/-- Header-name normalization performed by the `Headers` web API
(ASCII-lowercase the name). -/
def hnorm (k : String) : String := String.mk (k.data.map lowerChar)

/-- `headers.delete(k)`. Stored names are already normalized. -/
def hdelete (hs : List (String × String)) (k : String) : List (String × String) :=
  hs.filter (fun p => p.1 != hnorm k)

/-- `headers.set(k, v)`: replaces any entry with the same normalized name. -/
def hset (hs : List (String × String)) (k v : String) : List (String × String) :=
  hdelete hs k ++ [(hnorm k, v)]

/-- `headers.has(k)`. -/
def hhas (hs : List (String × String)) (k : String) : Bool :=
  hs.any (fun p => p.1 == hnorm k)

/-- `headers.get(k)`. -/
def hget (hs : List (String × String)) (k : String) : Option String :=
  (hs.find? (fun p => p.1 == hnorm k)).map (fun p => p.2)

/-- `new Headers({...})`: later entries of the merged object override
earlier ones with the same (normalized) name. -/
def headersOfPairs (pairs : List (String × String)) : List (String × String) :=
  pairs.foldl (fun hs p => hset hs p.1 p.2) []

/-! ## Client configuration and authentication resolution
(`HttpClient` constructor and the authentication block of
`HttpClient.request`, src/core/httpClient.ts lines 98-117) -/

/-- `HttpClientConfig` from src/core/httpClient.ts. -/
structure HttpClientConfig where
  baseURL : String
  apiKey : Option String := none
  authToken : Option String := none
  organizationId : Option String := none
  defaultHeaders : List (String × String) := []
  timeout : Option Nat := none

/-- JS truthiness of an optional string field (`undefined` and the empty
string are falsy). -/
def strTruthy : Option String → Bool
  | none => false
  | some s => !s.isEmpty

/-- The authentication block of `HttpClient.request`: API-key scheme takes
precedence, sets `X-API-Key` (plus `X-Organization-ID` when configured) and
deletes any `Authorization` header; otherwise a configured bearer token sets
`Authorization` (plus `X-Organization-ID` when configured and absent). -/
def applyAuthHeaders (cfg : HttpClientConfig) (headers : List (String × String)) :
    List (String × String) :=
  if strTruthy cfg.apiKey then
    let h1 := hset headers "X-API-Key" (cfg.apiKey.getD "")
    let h2 := if strTruthy cfg.organizationId then
        hset h1 "X-Organization-ID" (cfg.organizationId.getD "")
      else h1
    hdelete h2 "Authorization"
  else if strTruthy cfg.authToken then
    let h1 := hset headers "Authorization" ("Bearer " ++ cfg.authToken.getD "")
    if strTruthy cfg.organizationId && !hhas h1 "X-Organization-ID" then
      hset h1 "X-Organization-ID" (cfg.organizationId.getD "")
    else h1
  else headers

/-- Full header assembly of `HttpClient.request`: the constructor merges
`Content-Type: application/json` under the configured defaults, the request
merges call-level headers over the defaults, then authentication is
resolved. -/
def buildRequestHeaders (cfg : HttpClientConfig)
    (callHeaders : List (String × String)) : List (String × String) :=
  applyAuthHeaders cfg
    (headersOfPairs ((("Content-Type", "application/json") :: cfg.defaultHeaders) ++ callHeaders))

/-! ## Query-parameter serialization
(`formatQueryParams` in src/core/utils.ts and the query loop of
`HttpClient.request`; resource modules such as organizations.ts and
permissions.ts pass their parameter objects through `formatQueryParams`
before handing them to `HttpClient.request`). -/

/-- A JS value appearing in a query-parameter mapping. A `Date` carries
both its `toISOString()` rendering and its (non-ISO) default `String(...)`
rendering; the two are distinct renderings of the same object. -/
inductive QueryValue where
  | undef
  | null
  | date (iso : String) (display : String)
  | str (s : String)
  | num (n : Int)
  | bool (b : Bool)

/-- JS `String(value)` on a query value. -/
def jsString : QueryValue → String
  | .undef => "undefined"
  | .null => "null"
  | .date _ display => display
  | .str s => s
  | .num n => toString n
  | .bool b => if b then "true" else "false"

/-- `formatQueryParams` (src/core/utils.ts lines 7-18): Date values become
their ISO-8601 string, `undefined`/`null` entries are dropped, everything
else is kept unchanged, in the order supplied. -/
def formatQueryParams (params : List (String × QueryValue)) :
    List (String × QueryValue) :=
  params.filterMap (fun kv =>
    match kv.2 with
    | .date iso _ => some (kv.1, .str iso)
    | .undef => none
    | .null => none
    | v => some (kv.1, v))

/-- The query loop of `HttpClient.request` (src/core/httpClient.ts lines
87-93): skip `undefined`/`null` values, append `String(value)` for the
rest, in order. -/
def appendQueryParams (params : List (String × QueryValue)) :
    List (String × String) :=
  params.filterMap (fun kv =>
    match kv.2 with
    | .undef => none
    | .null => none
    | v => some (kv.1, jsString v))

/-- The serialization pipeline a resource call's query mapping goes
through: `formatQueryParams` in the resource module, then the append loop
inside `HttpClient.request`. -/
def queryParamsThroughRequest (params : List (String × QueryValue)) :
    List (String × String) :=
  appendQueryParams (formatQueryParams params)

/-! ## Request-body preparation
(`HttpClient.request`, src/core/httpClient.ts lines 119-135). -/

/-- A JS value supplied as `RequestOptions.body`. `circular` stands for an
object on which `JSON.stringify` throws. -/
inductive JsBody where
  | undef
  | null
  | bool (b : Bool)
  | num (n : Int)
  | str (s : String)
  | formData
  | urlSearchParams
  | blob
  | obj (j : JsonValue)
  | circular

/-- JS truthiness of a body value (`if (body)`). -/
def bodyTruthy : JsBody → Bool
  | .undef => false
  | .null => false
  | .bool b => b
  | .num n => n != 0
  | .str s => !s.isEmpty
  | _ => true

/-- The body actually handed to `fetch`: either the caller's value passed
through unchanged, or its JSON serialization. -/
inductive PreparedBody where
  | passthrough (b : JsBody)
  | jsonSerialized (b : JsBody)

/-- The body-preparation block of `HttpClient.request`: a falsy body is
dropped entirely (sent body stays `null`, headers untouched); a
string/FormData/URLSearchParams/Blob body passes through with
`Content-Type` deleted; anything else is JSON-serialized, setting
`Content-Type: application/json` unless already present; an unserializable
body raises an internal `SDKError`. -/
def prepareBody (headers : List (String × String)) (body : JsBody) :
    Except SDKOutcome (Option PreparedBody × List (String × String)) :=
  if !bodyTruthy body then
    .ok (none, headers)
  else
    match body with
    | .formData => .ok (some (.passthrough body), hdelete headers "Content-Type")
    | .str s => .ok (some (.passthrough (.str s)), hdelete headers "Content-Type")
    | .urlSearchParams => .ok (some (.passthrough body), hdelete headers "Content-Type")
    | .blob => .ok (some (.passthrough body), hdelete headers "Content-Type")
    | .circular => .error (.sdkError "Failed to stringify request body as JSON")
    | b =>
        .ok (some (.jsonSerialized b),
          if hhas headers "Content-Type" then headers
          else hset headers "Content-Type" "application/json")

/-! ## Response interpretation
(`HttpClient.request`, src/core/httpClient.ts lines 165-242). -/

/-- JS truthiness of the `expectedStatus` option (`undefined` and `0` are
falsy). -/
def expectedTruthy : Option Nat → Bool
  | none => false
  | some e => e != 0

/-- `response.status === expectedStatus`. -/
def expectedEq (es : Option Nat) (status : Nat) : Bool :=
  match es with
  | none => false
  | some e => status == e

/-- `response.ok`: status in the 2xx range. -/
def statusOkB (status : Nat) : Bool :=
  200 ≤ status && status ≤ 299

/-- The fields of the transport's response that `HttpClient.request`
inspects: status, the raw `Content-Length` header, and the result of
parsing the body as JSON (`none` = the body is not valid JSON). -/
structure HttpResponse where
  status : Nat
  contentLength : Option String
  body : Option JsonValue

/-- `isSuccessWrapper` (src/core/httpClient.ts lines 211-221): an
object-typed, non-null value whose `success` property is the boolean
`true` and which has an own `data` property. -/
def isSuccessWrapper : JsonValue → Bool
  | .obj fields =>
      (match lookupField fields "success" with
       | some (.bool true) => true
       | _ => false)
      && hasOwnProp fields "data"
  | _ => false

/-- `responseBody.data` of a wrapper object. -/
def unwrapData : JsonValue → Option JsonValue
  | .obj fields => lookupField fields "data"
  | _ => none

/-- The response-interpretation section of `HttpClient.request`
(src/core/httpClient.ts lines 165-242): non-success, non-expected statuses
are classified (401/403 to `AuthenticationError`, others to `APIError`);
then 204 / explicit zero `Content-Length` yields `undefined` unparsed;
then the JSON body is examined: success-envelope unwrapping first, then
the expected-status branch, then the `response.ok` branch (which also
requires no conflicting declared `expectedStatus`), else an internal
`SDKError`; an unparsable body on this path is an internal `SDKError`. -/
def handleResponse (expectedStatus : Option Nat) (r : HttpResponse) : SDKOutcome :=
  if !statusOkB r.status
      && !(expectedTruthy expectedStatus && expectedEq expectedStatus r.status) then
    if r.status == 401 || r.status == 403 then
      .authenticationError
    else
      .apiError r.status r.body
  else if r.status == 204 || r.contentLength == some "0" then
    .ok none
  else
    match r.body with
    | none => .sdkError "Failed to parse response body as JSON or unexpected structure"
    | some b =>
        if isSuccessWrapper b then
          .ok (unwrapData b)
        else if expectedTruthy expectedStatus && expectedEq expectedStatus r.status then
          .ok (some b)
        else if statusOkB r.status
            && (!expectedTruthy expectedStatus || expectedEq expectedStatus r.status) then
          .ok (some b)
        else
          .sdkError "Unexpected successful response structure or status mismatch"

/-! ## Transport-failure classification
(the `catch` around `fetch` in `HttpClient.request`, src/core/httpClient.ts
lines 146-163, over the derived signal of `getCombinedSignal`). -/

/-- The exception thrown by `fetch` when the request does not complete. -/
structure FetchException where
  name : String
  isDOMException : Bool
  message : String

/-- Rendering of `this.config.timeout` inside a template literal
(`undefined` when no timeout is configured). -/
def timeoutDisplay : Option Nat → String
  | none => "undefined"
  | some n => toString n

/-- The `catch` block around `fetch`: a `TimeoutError`, or an `AbortError`
`DOMException` observed while the timeout-derived signal is aborted, is a
`NetworkError` reporting the timeout; any other `AbortError` `DOMException`
(caller-initiated cancellation through the derived signal) is an internal
`SDKError` "Request aborted"; anything else is a generic `NetworkError`. -/
def classifyFetchError (timeout : Option Nat) (timeoutSignalAborted : Bool)
    (e : FetchException) : SDKOutcome :=
  if e.name == "TimeoutError"
      || (e.isDOMException && e.name == "AbortError" && timeoutSignalAborted) then
    .networkError ("Request timed out after " ++ timeoutDisplay timeout ++ "ms")
  else if e.isDOMException && e.name == "AbortError" then
    .sdkError ("Request aborted: " ++ e.message)
  else
    .networkError ("Network request failed: " ++ e.message)

/-! ## WalletsAPI.create (src/resources/wallets.ts lines 427-441) -/

/-- The result of a Zod `safeParse` call. -/
inductive SafeParseResult (α : Type) where
  | success (data : α)
  | failure (issues : List ZodIssue)

/-- A request dispatched to the transport. -/
structure SentRequest (β : Type) where
  path : String
  method : String
  body : β

/-- What a `WalletsAPI.create` call produces before output-schema parsing:
a `ValidationError` or the transport's response. -/
inductive CreateOutcome (β : Type) where
  | validationError (message : String) (issues : List ZodIssue)
  | response (body : JsonValue)

/-- `WalletsAPI.create`: validate the input with the declared schema's
`safeParse`; on failure throw `ValidationError` with the issue list; on
success dispatch exactly one POST to `/wallets`. The second component is
the list of requests handed to the transport. -/
def walletsCreate {α β : Type} (safeParse : α → SafeParseResult β)
    (transport : SentRequest β → JsonValue) (walletData : α) :
    CreateOutcome β × List (SentRequest β) :=
  match safeParse walletData with
  | .failure issues =>
      (.validationError "Invalid wallet creation data" issues, [])
  | .success data =>
      let req : SentRequest β := ⟨"/wallets", "POST", data⟩
      (.response (transport req), [req])

/-- Hexadecimal digit, as accepted by the Zod UUID pattern. -/
def isHexDigit (c : Char) : Bool :=
  c.isDigit || (decide ('a' ≤ c) && decide (c ≤ 'f')) || (decide ('A' ≤ c) && decide (c ≤ 'F'))

/-- `z.string().uuid()`: 8-4-4-4-12 hexadecimal groups separated by
hyphens. -/
def isUuidString (s : String) : Bool :=
  s.data.length == 36 &&
  s.data.enum.all (fun p =>
    if p.1 == 8 || p.1 == 13 || p.1 == 18 || p.1 == 23 then p.2 == '-'
    else isHexDigit p.2)

/-- `z.string()` on an object field: the key must be present (else the
`Required` issue) and hold a string. -/
def checkString (w : List (String × JsonValue)) (key : String) :
    Except ZodIssue String :=
  match lookupField w key with
  | none => .error ⟨key, "Required"⟩
  | some (.str s) => .ok s
  | some _ => .error ⟨key, "Expected string"⟩

/-- `z.string().uuid()` on a required object field. -/
def checkUuid (w : List (String × JsonValue)) (key : String) :
    Except ZodIssue String :=
  match lookupField w key with
  | none => .error ⟨key, "Required"⟩
  | some (.str s) => if isUuidString s then .ok s else .error ⟨key, "Invalid uuid"⟩
  | some _ => .error ⟨key, "Expected string"⟩

/-- `z.string().uuid().optional()`: an absent key passes as the absence
marker; a present value must be a UUID string. -/
def checkOptionalUuid (w : List (String × JsonValue)) (key : String) :
    Except ZodIssue (Option String) :=
  match lookupField w key with
  | none => .ok none
  | some (.str s) => if isUuidString s then .ok (some s) else .error ⟨key, "Invalid uuid"⟩
  | some _ => .error ⟨key, "Expected string"⟩

/-- `z.record(z.string()).optional()`: an absent key passes; a present
value must be an object whose values are all strings. -/
def checkOptionalStringRecord (w : List (String × JsonValue)) (key : String) :
    Except ZodIssue (Option (List (String × String))) :=
  match lookupField w key with
  | none => .ok none
  | some (.obj fs) =>
      match fs.mapM (fun p =>
          match p.2 with
          | JsonValue.str s => some (p.1, s)
          | _ => none) with
      | some r => .ok (some r)
      | none => .error ⟨key, "Expected string"⟩
  | some _ => .error ⟨key, "Expected object"⟩

/-- The issue contributed by one field check. -/
def issueOf {α : Type} : Except ZodIssue α → List ZodIssue
  | .error i => [i]
  | .ok _ => []

/-- The snake_case wire body produced by `WalletCreateRequestSchema`'s
transform (src/types/wallet.types.ts): `user_id` and `metadata` stay
absent when the optional inputs were omitted. -/
structure WalletCreateBody where
  blockchain : String
  name : String
  user_id : Option String
  organization_id : String
  metadata : Option (List (String × String))
deriving DecidableEq

/-- `WalletCreateRequestSchema.safeParse` (src/types/wallet.types.ts,
`WalletCreateRequestInputSchema` plus its transform): `blockchain` and
`name` are required strings (no minimum length — an empty name passes),
`userId` is an optional UUID, `organizationId` a required UUID, `metadata`
an optional string record; issues are collected per field in declaration
order, and on success the camelCase input is transformed to the snake_case
wire body. -/
def walletCreateSafeParse (w : List (String × JsonValue)) :
    SafeParseResult WalletCreateBody :=
  match checkString w "blockchain", checkString w "name",
      checkOptionalUuid w "userId", checkUuid w "organizationId",
      checkOptionalStringRecord w "metadata" with
  | .ok b, .ok n, .ok u, .ok o, .ok m => .success ⟨b, n, u, o, m⟩
  | rb, rn, ru, ro, rm =>
      .failure (issueOf rb ++ issueOf rn ++ issueOf ru ++ issueOf ro ++ issueOf rm)

/-! ## Helper lemmas about header operations -/

theorem hget_hdelete_of_ne (hs : List (String × String)) (k k' : String)
    (h : hnorm k' ≠ hnorm k) : hget (hdelete hs k) k' = hget hs k' := by
  unfold hget hdelete
  rw [List.find?_filter]
  have hfun : (fun (a : String × String) =>
      decide ((a.1 != hnorm k) = true ∧ (a.1 == hnorm k') = true))
      = (fun (p : String × String) => p.1 == hnorm k') := by
    funext a
    by_cases ha : a.1 = hnorm k'
    · simp [ha]
      exact h
    · simp [ha]
  rw [hfun]

theorem hget_hset_self (hs : List (String × String)) (k v : String) :
    hget (hset hs k v) k = some v := by
  unfold hset
  unfold hget
  rw [List.find?_append]
  have hleft : List.find? (fun p => p.1 == hnorm k) (hdelete hs k) = none := by
    rw [List.find?_eq_none]
    intro x hx
    have := List.of_mem_filter hx
    simpa using this
  simp [hleft]

theorem hget_hset_of_ne (hs : List (String × String)) (k v k' : String)
    (h : hnorm k' ≠ hnorm k) : hget (hset hs k v) k' = hget hs k' := by
  unfold hset
  have hstep : hget (hdelete hs k ++ [(hnorm k, v)]) k' = hget (hdelete hs k) k' := by
    unfold hget
    rw [List.find?_append]
    have hne : (hnorm k == hnorm k') = false := beq_eq_false_iff_ne.mpr (Ne.symm h)
    have hright : List.find? (fun p => p.1 == hnorm k') [(hnorm k, v)] = none := by
      simp [List.find?, hne]
    simp [hright]
  rw [hstep, hget_hdelete_of_ne hs k k' h]

theorem hhas_hdelete_self (hs : List (String × String)) (k : String) :
    hhas (hdelete hs k) k = false := by
  unfold hhas hdelete
  rw [Bool.eq_false_iff]
  intro hcontra
  rw [List.any_eq_true] at hcontra
  obtain ⟨x, hmem, hx⟩ := hcontra
  have hp := List.of_mem_filter hmem
  simp at hx hp
  exact hp hx

/-- Shape of `applyAuthHeaders` once the API-key branch is known to be
taken. -/
theorem applyAuthHeaders_apiKey_eq (cfg : HttpClientConfig)
    (hs : List (String × String)) (hk : strTruthy cfg.apiKey = true) :
    applyAuthHeaders cfg hs =
      hdelete
        (if strTruthy cfg.organizationId = true then
          hset (hset hs "X-API-Key" (cfg.apiKey.getD ""))
            "X-Organization-ID" (cfg.organizationId.getD "")
        else hset hs "X-API-Key" (cfg.apiKey.getD "")) "Authorization" := by
  unfold applyAuthHeaders
  rw [if_pos hk]

/-! ## Claim theorems -/

/-- C2: for every client configuration with an API-key credential set,
every request built by `HttpClient.request` carries `X-API-Key`, carries
`X-Organization-ID` whenever an organization identifier is configured, and
never carries an `Authorization` header — even if a bearer token is also
configured and even if `Authorization` appears in the default or
call-level headers. -/
theorem c2_api_key_scheme_exclusivity (cfg : HttpClientConfig)
    (callHeaders : List (String × String)) (hk : strTruthy cfg.apiKey = true) :
    hget (buildRequestHeaders cfg callHeaders) "X-API-Key" = cfg.apiKey
    ∧ (strTruthy cfg.organizationId = true →
        hget (buildRequestHeaders cfg callHeaders) "X-Organization-ID" = cfg.organizationId)
    ∧ hhas (buildRequestHeaders cfg callHeaders) "Authorization" = false := by
  obtain ⟨key, hkey⟩ : ∃ s, cfg.apiKey = some s := by
    cases hc : cfg.apiKey with
    | none => rw [hc] at hk; simp [strTruthy] at hk
    | some s => exact ⟨s, rfl⟩
  unfold buildRequestHeaders
  rw [applyAuthHeaders_apiKey_eq cfg _ hk]
  by_cases horg : strTruthy cfg.organizationId = true
  · obtain ⟨org, horgv⟩ : ∃ s, cfg.organizationId = some s := by
      cases hc : cfg.organizationId with
      | none => rw [hc] at horg; simp [strTruthy] at horg
      | some s => exact ⟨s, rfl⟩
    rw [if_pos horg]
    refine ⟨?_, fun _ => ?_, ?_⟩
    · rw [hget_hdelete_of_ne _ _ _ (by decide), hget_hset_of_ne _ _ _ _ (by decide),
        hget_hset_self, hkey]
      simp
    · rw [hget_hdelete_of_ne _ _ _ (by decide), hget_hset_self, horgv]
      simp
    · exact hhas_hdelete_self _ _
  · rw [if_neg horg]
    refine ⟨?_, fun hcontra => absurd hcontra horg, ?_⟩
    · rw [hget_hdelete_of_ne _ _ _ (by decide), hget_hset_self, hkey]
      simp
    · exact hhas_hdelete_self _ _

/-- Witness for C2 at a concrete configuration carrying both credentials
and stale `Authorization` entries in default and call headers. -/
theorem c2_api_key_scheme_exclusivity_witness :
    strTruthy (some "k") = true
    ∧ (hget (buildRequestHeaders
          ⟨"https://api.example.com", some "k", some "tok", some "org",
            [("Authorization", "Bearer stale")], none⟩
          [("authorization", "Bearer stale2")]) "X-API-Key" = some "k"
      ∧ (strTruthy (some "org") = true →
          hget (buildRequestHeaders
            ⟨"https://api.example.com", some "k", some "tok", some "org",
              [("Authorization", "Bearer stale")], none⟩
            [("authorization", "Bearer stale2")]) "X-Organization-ID" = some "org")
      ∧ hhas (buildRequestHeaders
          ⟨"https://api.example.com", some "k", some "tok", some "org",
            [("Authorization", "Bearer stale")], none⟩
          [("authorization", "Bearer stale2")]) "Authorization" = false) :=
  ⟨by decide,
    c2_api_key_scheme_exclusivity
      ⟨"https://api.example.com", some "k", some "tok", some "org",
        [("Authorization", "Bearer stale")], none⟩
      [("authorization", "Bearer stale2")] (by decide)⟩

/-- C5: a response whose status is 401 or 403 and does not equal the
call's declared `expectedStatus` makes `HttpClient.request` raise an
`AuthenticationError`, whatever the body holds; it neither returns a
payload nor raises an `APIError` (the outcome is exactly the
authentication-error constructor). -/
theorem c5_unauthorized_status_raises_authentication_error
    (es : Option Nat) (r : HttpResponse)
    (hstatus : r.status = 401 ∨ r.status = 403)
    (hne : ∀ e, es = some e → r.status ≠ e) :
    handleResponse es r = .authenticationError := by
  have hexp : expectedEq es r.status = false := by
    cases es with
    | none => rfl
    | some e =>
        have := hne e rfl
        simpa [expectedEq] using this
  have hok : statusOkB r.status = false := by
    rcases hstatus with h | h <;> rw [h] <;> decide
  unfold handleResponse
  rw [hexp, hok]
  rcases hstatus with h | h <;> rw [h] <;> simp

/-- Witness for C5: a plain 401 with a JSON error body and no declared
`expectedStatus`. -/
theorem c5_unauthorized_status_raises_authentication_error_witness :
    ((401 : Nat) = 401 ∨ (401 : Nat) = 403)
    ∧ handleResponse none ⟨401, none, some (.obj [("error", .str "bad token")])⟩
        = .authenticationError :=
  ⟨Or.inl rfl,
    c5_unauthorized_status_raises_authentication_error none
      ⟨401, none, some (.obj [("error", .str "bad token")])⟩
      (Or.inl rfl) (fun e he => by cases he)⟩

/-- C1 counterexample: a 200 response with the non-envelope body
`{id: "1"}` on a call that declared `expectedStatus: 202` does not return
the parsed body — `HttpClient.request` raises an internal `SDKError`
("Unexpected successful response structure or status mismatch"), because
the 2xx branch additionally requires the declared `expectedStatus` (when
present) to equal the status. -/
theorem c1_counterexample_2xx_with_conflicting_expected_status :
    handleResponse (some 202) ⟨200, none, some (.obj [("id", .str "1")])⟩
      = .sdkError "Unexpected successful response structure or status mismatch"
    ∧ ¬ (handleResponse (some 202) ⟨200, none, some (.obj [("id", .str "1")])⟩
          = .ok (some (.obj [("id", .str "1")]))) := by
  constructor
  · rfl
  · intro h
    rw [show handleResponse (some 202) ⟨200, none, some (.obj [("id", .str "1")])⟩
        = .sdkError "Unexpected successful response structure or status mismatch" from rfl] at h
    exact SDKOutcome.noConfusion h

/-- C1 (amended): for a parsed non-envelope body, the body is the payload
when the status equals the declared (truthy) `expectedStatus`, or when the
status is 2xx and no conflicting `expectedStatus` was declared (none
declared, or it equals the status). A 2xx response with a different
declared `expectedStatus` instead raises an internal `SDKError`
(see the counterexample). -/
theorem c1_amended_non_envelope_payload (es : Option Nat) (r : HttpResponse)
    (b : JsonValue) (hbody : r.body = some b) (hw : isSuccessWrapper b = false)
    (h204 : r.status ≠ 204) (hcl : r.contentLength ≠ some "0")
    (hbranch : (expectedTruthy es = true ∧ expectedEq es r.status = true)
      ∨ (statusOkB r.status = true
          ∧ (expectedTruthy es = false ∨ expectedEq es r.status = true))) :
    handleResponse es r = .ok (some b) := by
  have h204b : (r.status == 204) = false := by simpa using h204
  have hclb : (r.contentLength == some "0") = false := by simpa using hcl
  rcases hbranch with ⟨ht, he⟩ | ⟨hok, hcase⟩
  · simp [handleResponse, hbody, ht, he, h204b, hclb, hw]
  · rcases hcase with hf | he2
    · simp [handleResponse, hbody, hok, h204b, hclb, hw, hf]
    · cases het : expectedTruthy es <;>
        simp [handleResponse, hbody, hok, h204b, hclb, hw, he2, het]

/-- Witness for the amended C1: a 202 response with a declared
`expectedStatus: 202` and a bare body returns that body. -/
theorem c1_amended_non_envelope_payload_witness :
    isSuccessWrapper (.obj [("id", .str "1")]) = false
    ∧ handleResponse (some 202) ⟨202, some "5", some (.obj [("id", .str "1")])⟩
        = .ok (some (.obj [("id", .str "1")])) :=
  ⟨rfl,
    c1_amended_non_envelope_payload (some 202)
      ⟨202, some "5", some (.obj [("id", .str "1")])⟩ _ rfl rfl (by decide) (by decide)
      (Or.inl ⟨rfl, rfl⟩)⟩

/-- C4 counterexample: a 201 response with the bare body `{id: "1"}` on a
call that declared `expectedStatus: 202` does not return the body
unchanged — the code raises an internal `SDKError` — so the second half of
the claim fails when a conflicting `expectedStatus` is declared. -/
theorem c4_counterexample_bare_body_with_conflicting_expected_status :
    handleResponse (some 202) ⟨201, none, some (.obj [("id", .str "1")])⟩
      = .sdkError "Unexpected successful response structure or status mismatch"
    ∧ ¬ (handleResponse (some 202) ⟨201, none, some (.obj [("id", .str "1")])⟩
          = .ok (some (.obj [("id", .str "1")]))) := by
  constructor
  · rfl
  · intro h
    rw [show handleResponse (some 202) ⟨201, none, some (.obj [("id", .str "1")])⟩
        = .sdkError "Unexpected successful response structure or status mismatch" from rfl] at h
    exact SDKOutcome.noConfusion h

/-- C4 (amended): for every 2xx response whose parsed body is an envelope
(boolean `success === true` and an own `data` property) the `data` value
is returned, whatever `expectedStatus` was declared; a 2xx non-envelope
body is returned unchanged provided the call declared no truthy
`expectedStatus` or declared one equal to the status (a conflicting
declaration raises an internal `SDKError` instead, see the
counterexample). -/
theorem c4_amended_envelope_unwrapping (es : Option Nat) (r : HttpResponse)
    (b : JsonValue) (hok : statusOkB r.status = true) (hbody : r.body = some b)
    (h204 : r.status ≠ 204) (hcl : r.contentLength ≠ some "0") :
    (isSuccessWrapper b = true → handleResponse es r = .ok (unwrapData b))
    ∧ (isSuccessWrapper b = false →
        (expectedTruthy es = false ∨ expectedEq es r.status = true) →
        handleResponse es r = .ok (some b)) := by
  have h204b : (r.status == 204) = false := by simpa using h204
  have hclb : (r.contentLength == some "0") = false := by simpa using hcl
  constructor
  · intro hw
    simp [handleResponse, hbody, hok, h204b, hclb, hw]
  · intro hw hcase
    rcases hcase with hf | he2
    · simp [handleResponse, hbody, hok, h204b, hclb, hw, hf]
    · cases het : expectedTruthy es <;>
        simp [handleResponse, hbody, hok, h204b, hclb, hw, he2, het]

/-- Witness for the amended C4, instantiating the claim's example: the
envelope `{success: true, data: {id: "1"}}` and the bare `{id: "1"}`, both
at status 200 with no declared `expectedStatus`, yield the same payload
`{id: "1"}`. -/
theorem c4_amended_envelope_unwrapping_witness :
    handleResponse none
        ⟨200, none, some (.obj [("success", .bool true), ("data", .obj [("id", .str "1")])])⟩
      = .ok (some (.obj [("id", .str "1")]))
    ∧ handleResponse none ⟨200, none, some (.obj [("id", .str "1")])⟩
      = .ok (some (.obj [("id", .str "1")])) :=
  ⟨(c4_amended_envelope_unwrapping none
      ⟨200, none, some (.obj [("success", .bool true), ("data", .obj [("id", .str "1")])])⟩
      _ rfl rfl (by decide) (by decide)).1 rfl,
    (c4_amended_envelope_unwrapping none ⟨200, none, some (.obj [("id", .str "1")])⟩
      _ rfl rfl (by decide) (by decide)).2 rfl (Or.inl rfl)⟩

/-- C9 counterexample: a 200 response whose body carries `success: false`
is not returned unchanged when the call declared `expectedStatus: 201` —
the code raises an internal `SDKError` — so the claim fails for calls with
a conflicting declared `expectedStatus`. -/
theorem c9_counterexample_false_success_with_conflicting_expected_status :
    handleResponse (some 201) ⟨200, none, some (.obj [("success", .bool false), ("data", .str "x")])⟩
      = .sdkError "Unexpected successful response structure or status mismatch"
    ∧ ¬ (handleResponse (some 201)
          ⟨200, none, some (.obj [("success", .bool false), ("data", .str "x")])⟩
          = .ok (some (.obj [("success", .bool false), ("data", .str "x")]))) := by
  constructor
  · rfl
  · intro h
    rw [show handleResponse (some 201)
          ⟨200, none, some (.obj [("success", .bool false), ("data", .str "x")])⟩
        = .sdkError "Unexpected successful response structure or status mismatch" from rfl] at h
    exact SDKOutcome.noConfusion h

/-- C9 (amended): a 2xx response whose parsed body is an object with
`success: false`, or `success: true` but no own `data` property, is
returned whole and unchanged — neither unwrapped nor turned into an
error — provided the call declared no truthy `expectedStatus` or declared
one equal to the status (a conflicting declaration raises an internal
`SDKError` instead, see the counterexample). -/
theorem c9_amended_false_success_flag_passthrough (es : Option Nat)
    (r : HttpResponse) (fs : List (String × JsonValue))
    (hok : statusOkB r.status = true) (hbody : r.body = some (.obj fs))
    (h204 : r.status ≠ 204) (hcl : r.contentLength ≠ some "0")
    (hshape : lookupField fs "success" = some (.bool false)
      ∨ (lookupField fs "success" = some (.bool true) ∧ hasOwnProp fs "data" = false))
    (hes : expectedTruthy es = false ∨ expectedEq es r.status = true) :
    handleResponse es r = .ok (some (.obj fs)) := by
  have hw : isSuccessWrapper (.obj fs) = false := by
    rcases hshape with h | ⟨h1, h2⟩
    · simp [isSuccessWrapper, h]
    · simp [isSuccessWrapper, h1, h2]
  have h204b : (r.status == 204) = false := by simpa using h204
  have hclb : (r.contentLength == some "0") = false := by simpa using hcl
  rcases hes with hf | he2
  · simp [handleResponse, hbody, hok, h204b, hclb, hw, hf]
  · cases het : expectedTruthy es <;>
      simp [handleResponse, hbody, hok, h204b, hclb, hw, he2, het]

/-- Witness for the amended C9: a 200 response with body
`{success: false, data: "x"}` and no declared `expectedStatus` is handed
back whole. -/
theorem c9_amended_false_success_flag_passthrough_witness :
    statusOkB 200 = true
    ∧ handleResponse none ⟨200, none, some (.obj [("success", .bool false), ("data", .str "x")])⟩
        = .ok (some (.obj [("success", .bool false), ("data", .str "x")])) :=
  ⟨rfl,
    c9_amended_false_success_flag_passthrough none
      ⟨200, none, some (.obj [("success", .bool false), ("data", .str "x")])⟩
      _ rfl rfl (by decide) (by decide) (Or.inl rfl) (Or.inl rfl)⟩

/-- C7 counterexample: a 500 response carrying `Content-Length: 0` (with no
declared `expectedStatus`) is not the no-payload result — error
classification runs first and raises an `APIError` — so the claim's
universal reading over all responses with zero content length fails. -/
theorem c7_counterexample_zero_length_error_status :
    handleResponse none ⟨500, some "0", none⟩ = .apiError 500 none
    ∧ ¬ (handleResponse none ⟨500, some "0", none⟩ = .ok none) := by
  constructor
  · rfl
  · intro h
    rw [show handleResponse none ⟨500, some "0", none⟩ = .apiError 500 none from rfl] at h
    exact SDKOutcome.noConfusion h

/-- C7 (amended): every response with status 204 yields the no-payload
result `undefined` with no body parsing, whatever `expectedStatus` was
declared; a response whose `Content-Length` header is exactly "0" does so
provided its status survives error classification (2xx, or equal to the
declared truthy `expectedStatus`). The conclusion holds for every `body`
field — including an unparsable one (`none`) — which is exactly the claim
that the JSON-parse step and its internal-error branch are unreachable. -/
theorem c7_amended_no_content_responses (es : Option Nat) (r : HttpResponse)
    (h : r.status = 204
      ∨ (r.contentLength = some "0"
          ∧ (statusOkB r.status = true
              ∨ (expectedTruthy es = true ∧ expectedEq es r.status = true)))) :
    handleResponse es r = .ok none := by
  rcases h with h204 | ⟨hcl, hcase⟩
  · have hok : statusOkB 204 = true := by decide
    simp [handleResponse, h204, hok]
  · rcases hcase with hok | ⟨ht, he⟩
    · simp [handleResponse, hok, hcl]
    · simp [handleResponse, ht, he, hcl]

/-- Witness for the amended C7: a 204 response with an unparsable body
yields `undefined`, and so does a 200 response with `Content-Length: 0`. -/
theorem c7_amended_no_content_responses_witness :
    handleResponse none ⟨204, none, none⟩ = .ok none
    ∧ handleResponse none ⟨200, some "0", none⟩ = .ok none :=
  ⟨c7_amended_no_content_responses none ⟨204, none, none⟩ (Or.inl rfl),
    c7_amended_no_content_responses none ⟨200, some "0", none⟩
      (Or.inr ⟨rfl, Or.inl rfl⟩)⟩

/-- C3: through the serialization pipeline (`formatQueryParams` in the
resource module, then the query loop of `HttpClient.request`),
`undefined`/`null` entries are dropped, `Date` entries are serialized to
their ISO-8601 string (never their default string rendering), and all other
entries are kept in order as `String(value)`; in particular the mapping
`{a: undefined, b: null, c: <Date>, d: "x"}` serializes to just
`c` (as ISO-8601) and `d`. -/
theorem c3_query_parameter_serialization :
    (∀ params : List (String × QueryValue),
      queryParamsThroughRequest params = params.filterMap (fun kv =>
        match kv.2 with
        | .undef => none
        | .null => none
        | .date iso _ => some (kv.1, iso)
        | v => some (kv.1, jsString v)))
    ∧ ∀ iso display : String,
        queryParamsThroughRequest
          [("a", .undef), ("b", .null), ("c", .date iso display), ("d", .str "x")]
          = [("c", iso), ("d", "x")] := by
  constructor
  · intro params
    induction params with
    | nil => rfl
    | cons kv t ih =>
        obtain ⟨k, v⟩ := kv
        cases v <;>
          simp only [queryParamsThroughRequest, formatQueryParams, appendQueryParams,
            List.filterMap_cons, jsString] <;>
          simpa [queryParamsThroughRequest, formatQueryParams, appendQueryParams] using ih
  · intro iso display
    rfl

/-- C8: the `catch` block around the transport call distinguishes the two
ways the derived cancellation signal can terminate a request: an abort
observed while the timeout-derived signal has fired is a `NetworkError`
whose message reports the timeout, a caller-initiated abort (timeout signal
not fired) is an internal `SDKError` "Request aborted", and the two
outcomes are distinct constructors, never conflated. -/
theorem c8_timeout_and_cancellation_distinguished (t : Option Nat) (msg : String) :
    classifyFetchError t true ⟨"AbortError", true, msg⟩
      = .networkError ("Request timed out after " ++ timeoutDisplay t ++ "ms")
    ∧ classifyFetchError t false ⟨"AbortError", true, msg⟩
      = .sdkError ("Request aborted: " ++ msg)
    ∧ SDKOutcome.networkError ("Request timed out after " ++ timeoutDisplay t ++ "ms")
      ≠ SDKOutcome.sdkError ("Request aborted: " ++ msg) :=
  ⟨rfl, rfl, fun h => SDKOutcome.noConfusion h⟩

/-- C10: a falsy request body (`undefined`, `null`, `""`, `0`, `false`)
is dropped entirely by the body-preparation block: nothing is handed to
`fetch` as a body, no serialization happens, and the headers — including
`Content-Type` — are left untouched. -/
theorem c10_falsy_body_dropped (headers : List (String × String)) (body : JsBody)
    (h : bodyTruthy body = false) :
    prepareBody headers body = .ok (none, headers) := by
  unfold prepareBody
  rw [h]
  simp

/-- Witness for C10: an explicit empty-string body is silently dropped and
the prepared headers are unchanged. -/
theorem c10_falsy_body_dropped_witness :
    bodyTruthy (.str "") = false
    ∧ prepareBody [("content-type", "application/json")] (.str "")
        = .ok (none, [("content-type", "application/json")]) :=
  ⟨rfl, c10_falsy_body_dropped [("content-type", "application/json")] (.str "") rfl⟩

/-- C6: whenever the declared input schema's `safeParse` rejects a
wallet-creation input, `WalletsAPI.create` produces a `ValidationError`
carrying exactly the schema's field-level issues, and the list of requests
handed to the transport is empty — no dispatch, no other side effect. -/
theorem c6_create_validation_precedes_dispatch {α β : Type}
    (safeParse : α → SafeParseResult β) (transport : SentRequest β → JsonValue)
    (walletData : α) (issues : List ZodIssue)
    (h : safeParse walletData = .failure issues) :
    walletsCreate safeParse transport walletData
      = (.validationError "Invalid wallet creation data" issues, []) := by
  unfold walletsCreate
  rw [h]

/-- Witness for C6: an input missing the required `organizationId` field
fails `WalletCreateRequestSchema` with the `organizationId: Required`
issue, and `WalletsAPI.create` yields a `ValidationError` carrying it with
zero transport calls. -/
theorem c6_create_validation_precedes_dispatch_witness :
    walletCreateSafeParse [("blockchain", .str "ethereum"), ("name", .str "Treasury Wallet")]
      = .failure [⟨"organizationId", "Required"⟩]
    ∧ walletsCreate walletCreateSafeParse (fun _ => .null)
        [("blockchain", .str "ethereum"), ("name", .str "Treasury Wallet")]
        = (.validationError "Invalid wallet creation data"
            [⟨"organizationId", "Required"⟩], []) :=
  ⟨rfl,
    c6_create_validation_precedes_dispatch walletCreateSafeParse (fun _ => .null)
      [("blockchain", .str "ethereum"), ("name", .str "Treasury Wallet")]
      [⟨"organizationId", "Required"⟩] rfl⟩
